import Mathlib

/-!
Shallow embedding of `src/main.py` (Nutrition Advisor): data normalization,
BMI categorization, candidate filtering, weighted scoring and argmin selection.
Missing numeric cells are `Option ℚ` (`none` = NaN), categorical cells are
`Option String` (`none` = NaN).  Floats are modelled by ℚ.
-/

namespace Nutrition

/-- Embeds `EATING_HABIT_RANKING = {'NEVER': 0, 'RARELY': 1, 'OFTEN': 2, 'DAILY': 3}`
as a dictionary lookup returning `none` on unknown keys. -/
def EATING_HABIT_RANKING (s : String) : Option ℚ :=
  if s = "NEVER" then some 0
  else if s = "RARELY" then some 1
  else if s = "OFTEN" then some 2
  else if s = "DAILY" then some 3
  else none

/-- Embeds `ACTIVITY_RANKING = {'LIGHT ACTIVE': 0, 'MODERATELY ACTIVE': 1, 'ACTIVE': 2,
'VERY ACTIVE': 3}` as a dictionary lookup returning `none` on unknown keys. -/
def ACTIVITY_RANKING (s : String) : Option ℚ :=
  if s = "LIGHT ACTIVE" then some 0
  else if s = "MODERATELY ACTIVE" then some 1
  else if s = "ACTIVE" then some 2
  else if s = "VERY ACTIVE" then some 3
  else none

/-- Embeds `EATING_HABIT_RANKING.get(x, 0)` (user-input side, `find_best_match`). -/
def eatingRankGet (s : String) : ℚ := (EATING_HABIT_RANKING s).getD 0

/-- Embeds `ACTIVITY_RANKING.get(x, 0)` (user-input side, `find_best_match`). -/
def activityRankGet (s : String) : ℚ := (ACTIVITY_RANKING s).getD 0

/-- Embeds `df[col].map(EATING_HABIT_RANKING).fillna(0)` applied to one cell:
a missing cell or an unmapped value becomes rank 0. -/
def cellEatingRank (v : Option String) : ℚ := (v.bind EATING_HABIT_RANKING).getD 0

/-- Embeds `df['Physical Activity level'].map(ACTIVITY_RANKING).fillna(0)` on one cell. -/
def cellActivityRank (v : Option String) : ℚ := (v.bind ACTIVITY_RANKING).getD 0

/-- Embeds `categorize_bmi` from `src/main.py` lines 49-56, literally following the
`if` chain. -/
def categorize_bmi (bmi : ℚ) : String :=
  if bmi < 18.5 then "UNDERWEIGHT"
  else if 18.5 ≤ bmi ∧ bmi < 25 then "NORMAL"
  else if 25 ≤ bmi ∧ bmi < 30 then "OVERWEIGHT"
  else if 30 ≤ bmi ∧ bmi < 35 then "OBESITY (CLASS 1)"
  else if 35 ≤ bmi ∧ bmi < 40 then "OBESITY (CLASS 2)"
  else "SEVERE/MORBID OBESITY"

/-- Pandas `Series.median()` on a list of non-missing values: middle of the sorted
list for odd length, mean of the two middle elements for even length. -/
def median (l : List ℚ) : ℚ :=
  let s := List.insertionSort (· ≤ ·) l
  if l.length % 2 = 1 then s.getD (l.length / 2) 0
  else (s.getD (l.length / 2 - 1) 0 + s.getD (l.length / 2) 0) / 2

/-- Median of the non-missing cells of a column; `none` when every cell is missing
(pandas: median of an all-NaN column is NaN). -/
def colMedian (col : List (Option ℚ)) : Option ℚ :=
  let vs := col.filterMap id
  if vs.isEmpty then none else some (median vs)

/-- One cell of `fillna(m)`: a present value is kept, a missing one becomes `m`
(and stays missing when `m` is itself missing). -/
def fillCell (m : Option ℚ) (v : Option ℚ) : Option ℚ :=
  match v with
  | some x => some x
  | none => m

/-- Embeds `df[col].fillna(df[col].median(), inplace=True)` on one numeric column:
the median is computed over the non-missing cells once, before any replacement. -/
def fillnaMedian (col : List (Option ℚ)) : List (Option ℚ) :=
  col.map (fillCell (colMedian col))

/-- Python `str.upper()`: uppercase every character. -/
def pyUpper (s : String) : String := String.mk (s.data.map Char.toUpper)

/-- Python `str.strip()`: drop whitespace from both ends. -/
def pyStrip (s : String) : String :=
  String.mk (((s.data.dropWhile Char.isWhitespace).reverse.dropWhile
    Char.isWhitespace).reverse)

/-- Embeds `.str.strip().str.upper()` on one string cell (NaN stays NaN). -/
def canon (v : Option String) : Option String := v.map (fun s => pyUpper (pyStrip s))

/-- One raw CSV row, with the columns `src/main.py` touches.  Numeric physical
measures are `Option ℚ`, categorical/text cells `Option String`. -/
structure RawRecord where
  age : Option ℚ
  meals : Option ℚ
  height : Option ℚ
  weight : Option ℚ
  bmi : Option ℚ
  gender : Option String
  bmiCategory : Option String
  activity : Option String
  rice : Option String
  beans : Option String
  softDrinks : Option String
  snacks : Option String
  fruits : Option String
  veg : Option String
  advice : Option String
  risk : Option String
  deriving Inhabited, DecidableEq

/-- A row after `load_and_preprocess_data`: numeric columns median-imputed, text
columns canonicalized, and the derived `*_Rank` columns appended. -/
structure NormRecord where
  age : Option ℚ
  meals : Option ℚ
  height : Option ℚ
  weight : Option ℚ
  bmi : Option ℚ
  gender : Option String
  bmiCategory : Option String
  activity : Option String
  rice : Option String
  beans : Option String
  softDrinks : Option String
  snacks : Option String
  fruits : Option String
  veg : Option String
  advice : Option String
  risk : Option String
  riceRank : ℚ
  beansRank : ℚ
  softDrinksRank : ℚ
  snacksRank : ℚ
  fruitsRank : ℚ
  vegRank : ℚ
  activityRank : ℚ
  deriving Inhabited, DecidableEq

/-- Normalization of one row given the five column medians: numeric fillna, text
canonicalization, and rank derivation from the canonicalized text (the code
uppercases before mapping the ranking dictionaries). -/
def normalizeRow (mAge mMeals mHeight mWeight mBmi : Option ℚ) (r : RawRecord) :
    NormRecord where
  age := fillCell mAge r.age
  meals := fillCell mMeals r.meals
  height := fillCell mHeight r.height
  weight := fillCell mWeight r.weight
  bmi := fillCell mBmi r.bmi
  gender := canon r.gender
  bmiCategory := canon r.bmiCategory
  activity := canon r.activity
  rice := canon r.rice
  beans := canon r.beans
  softDrinks := canon r.softDrinks
  snacks := canon r.snacks
  fruits := canon r.fruits
  veg := canon r.veg
  advice := canon r.advice
  risk := canon r.risk
  riceRank := cellEatingRank (canon r.rice)
  beansRank := cellEatingRank (canon r.beans)
  softDrinksRank := cellEatingRank (canon r.softDrinks)
  snacksRank := cellEatingRank (canon r.snacks)
  fruitsRank := cellEatingRank (canon r.fruits)
  vegRank := cellEatingRank (canon r.veg)
  activityRank := cellActivityRank (canon r.activity)

/-- The preprocessing body of `load_and_preprocess_data` (lines 29-45): per-column
median imputation for the five numeric columns, strip/upper for text columns,
and appended rank columns.  Note the code does NOT derive a BMI category; the
`BMI Category` column is read from the CSV and only canonicalized. -/
def normalize (rows : List RawRecord) : List NormRecord :=
  rows.map (normalizeRow
    (colMedian (rows.map (fun r => r.age)))
    (colMedian (rows.map (fun r => r.meals)))
    (colMedian (rows.map (fun r => r.height)))
    (colMedian (rows.map (fun r => r.weight)))
    (colMedian (rows.map (fun r => r.bmi))))

/-- The user-input dictionary produced by `get_user_input`. -/
structure UserInputs where
  bmi : ℚ
  gender : String
  activity : String
  rice : String
  beans : String
  soft_drinks : String
  snacks : String
  fruits : String
  veg : String
  deriving Inhabited, DecidableEq

/-- Embeds `df[(df['Gender'] == gender) & (df['BMI Category'] == cat)]`:
a pandas NaN cell compares unequal to any string, hence `some` on both sides. -/
def candidateFilter (df : List NormRecord) (gender cat : String) : List NormRecord :=
  df.filter (fun r => r.gender == some gender && r.bmiCategory == some cat)

/-- The per-row score of `find_best_match` (lines 110-116), in the code's
accumulation order: activity weighted 2, soft drinks and snacks weighted 1.5. -/
def rowScore (row : NormRecord) (u : UserInputs) : ℚ :=
  let score := |row.activityRank - activityRankGet u.activity| * 2
  let score := score + |row.riceRank - eatingRankGet u.rice|
  let score := score + |row.beansRank - eatingRankGet u.beans|
  let score := score + |row.softDrinksRank - eatingRankGet u.soft_drinks| * 1.5
  let score := score + |row.snacksRank - eatingRankGet u.snacks| * 1.5
  let score := score + |row.fruitsRank - eatingRankGet u.fruits|
  let score := score + |row.vegRank - eatingRankGet u.veg|
  score

/-- The §4.4 score formula written from the spec's words, for comparison with the
code's `rowScore`. -/
def score_spec (c : NormRecord) (u : UserInputs) : ℚ :=
  2.0 * |c.activityRank - activityRankGet u.activity|
    + 1.0 * |c.riceRank - eatingRankGet u.rice|
    + 1.0 * |c.beansRank - eatingRankGet u.beans|
    + 1.5 * |c.softDrinksRank - eatingRankGet u.soft_drinks|
    + 1.5 * |c.snacksRank - eatingRankGet u.snacks|
    + 1.0 * |c.fruitsRank - eatingRankGet u.fruits|
    + 1.0 * |c.vegRank - eatingRankGet u.veg|

/-- Minimum of a score list (value scanned by `np.argmin`); 0 on the empty list,
which `find_best_match` never reaches. -/
def listMin : List ℚ → ℚ
  | [] => 0
  | [x] => x
  | x :: y :: ys => min x (listMin (y :: ys))

/-- Embeds `np.argmin(scores)`: the index of the FIRST occurrence of the minimum. -/
def argmin (scores : List ℚ) : Nat := scores.indexOf (listMin scores)

/-- Embeds `find_best_match` (lines 89-123): derive the user's BMI category,
filter on gender and BMI category, return `None` when no candidates, otherwise
score each candidate row and return the row at `np.argmin(scores)`. -/
def find_best_match (df : List NormRecord) (u : UserInputs) : Option NormRecord :=
  let user_bmi_category := categorize_bmi u.bmi
  let candidates := candidateFilter df u.gender user_bmi_category
  if candidates.isEmpty then none
  else
    let scores := candidates.map (fun r => rowScore r u)
    if scores.isEmpty then none
    else some (candidates.getD (argmin scores) default)

/-- Outcome of the attempt to open and parse the CSV file: present and parsed,
absent (Python raises `FileNotFoundError`), or present but unreadable (Python
raises a different `OSError`, e.g. `PermissionError`). -/
inductive ReadOutcome where
  | found : List RawRecord → ReadOutcome
  | missingFile : ReadOutcome
  | unreadableFile : ReadOutcome
  deriving DecidableEq

/-- Result of running a Python function: normal return, or an uncaught exception
carrying its name. -/
inductive PyResult (α : Type) where
  | ok : α → PyResult α
  | raised : String → PyResult α
  deriving DecidableEq

/-- Embeds `load_and_preprocess_data` (lines 17-47): the `try` block reads and
preprocesses the CSV; `except FileNotFoundError: return None` catches ONLY a
missing file, so any other read error propagates uncaught. -/
def load_and_preprocess_data (src : ReadOutcome) : PyResult (Option (List NormRecord)) :=
  match src with
  | .found rows => .ok (some (normalize rows))
  | .missingFile => .ok none
  | .unreadableFile => .raised "PermissionError"

/-- What `display_results` renders: either the no-match error message (carrying no
profile fields), or the advice/risk plus the matched profile fields. -/
inductive Display where
  | noMatch : Display
  | matched (advice risk : String) (gender bmiCat activity : Option String) : Display
  deriving DecidableEq

/-- Embeds `display_results` (lines 125-155): `None` yields the "couldn't find a
suitable match" message and returns; otherwise the advice, risk and profile
fields are shown (missing advice/risk fall back to the defaults). -/
def display_results (best_match : Option NormRecord) : Display :=
  match best_match with
  | none => .noMatch
  | some r =>
      .matched (r.advice.getD "No specific advice available.")
        (r.risk.getD "Not determined.") r.gender r.bmiCategory r.activity

/-- Outcome of one run of `main` with a pressed button: dataset-missing error
before any query, a match query result, or an uncaught exception. -/
inductive AppOutcome where
  | dataError : AppOutcome
  | queried : Option NormRecord → AppOutcome
  | crashed : String → AppOutcome
  deriving DecidableEq

/-- Embeds `main` (lines 163-182) for one button press: if loading returned
`None` the app shows the dataset error and returns without querying; otherwise
`find_best_match` runs against the loaded dataset. -/
def mainFlow (src : ReadOutcome) (u : UserInputs) : AppOutcome :=
  match load_and_preprocess_data src with
  | .raised e => .crashed e
  | .ok none => .dataError
  | .ok (some df) => .queried (find_best_match df u)

/-! ## Helper lemmas -/

theorem listMin_mem : ∀ l : List ℚ, l ≠ [] → listMin l ∈ l
  | [x], _ => by simp [listMin]
  | x :: y :: ys, _ => by
      rcases le_total x (listMin (y :: ys)) with h | h
      · simp [listMin, min_eq_left h]
      · have := listMin_mem (y :: ys) (by simp)
        simp only [listMin, min_eq_right h]
        exact List.mem_cons_of_mem _ this

theorem listMin_le : ∀ l : List ℚ, ∀ x ∈ l, listMin l ≤ x
  | [x], y, hy => by simp_all [listMin]
  | x :: y :: ys, z, hz => by
      rcases List.mem_cons.1 hz with rfl | hz
      · simp [listMin]
      · have := listMin_le (y :: ys) z hz
        simp only [listMin]
        exact le_trans (min_le_right _ _) this

theorem getD_ne_of_lt_indexOf :
    ∀ (l : List ℚ) (a : ℚ) (j : Nat), j < l.indexOf a → l.getD j 0 ≠ a
  | x :: xs, a, j, hj => by
      by_cases hx : x = a
      · rw [List.indexOf_cons_eq xs hx] at hj; omega
      · rw [List.indexOf_cons_ne xs hx] at hj
        cases j with
        | zero => simpa using hx
        | succ j =>
            have := getD_ne_of_lt_indexOf xs a j (by omega)
            simpa using this
  | [], a, j, hj => by simp [List.indexOf] at hj

theorem argmin_lt_length (s : List ℚ) (h : s ≠ []) : argmin s < s.length :=
  List.indexOf_lt_length.2 (listMin_mem s h)

theorem getD_argmin (s : List ℚ) (h : s ≠ []) : s.getD (argmin s) 0 = listMin s := by
  have hlt : argmin s < s.length := argmin_lt_length s h
  rw [List.getD_eq_getElem s 0 hlt]
  exact List.getElem_indexOf hlt

theorem argmin_first (s : List ℚ) (j : Nat) (_hj : j < s.length)
    (h : s.getD j 0 = listMin s) : argmin s ≤ j := by
  by_contra hlt
  push_neg at hlt
  exact getD_ne_of_lt_indexOf s (listMin s) j hlt h

/-! ## Claim theorems -/

/-- C1: for every non-empty score sequence, the selector picks the index of the
minimum score, ties broken by the lowest index (argmin semantics), and
`find_best_match` returns the candidate at that index; for `[3, 1, 1, 4]` the
index is 1, never 2. -/
theorem C1_selector_first_minimum (s : List ℚ) (hne : s ≠ []) :
    argmin s < s.length ∧
    s.getD (argmin s) 0 = listMin s ∧
    (∀ j, j < s.length → listMin s ≤ s.getD j 0) ∧
    (∀ j, j < s.length → s.getD j 0 = listMin s → argmin s ≤ j) ∧
    (∀ (df : List NormRecord) (u : UserInputs),
      candidateFilter df u.gender (categorize_bmi u.bmi) ≠ [] →
      find_best_match df u =
        some ((candidateFilter df u.gender (categorize_bmi u.bmi)).getD
          (argmin ((candidateFilter df u.gender (categorize_bmi u.bmi)).map
            (fun r => rowScore r u))) default)) ∧
    argmin [3, 1, 1, 4] = 1 := by
  refine ⟨argmin_lt_length s hne, getD_argmin s hne, ?_, argmin_first s, ?_, by decide⟩
  · intro j hj
    rw [List.getD_eq_getElem s 0 hj]
    exact listMin_le s _ (List.getElem_mem hj)
  · intro df u hc
    unfold find_best_match
    have h1 : (candidateFilter df u.gender (categorize_bmi u.bmi)).isEmpty = false := by
      simpa [List.isEmpty_iff] using hc
    have h2 : ((candidateFilter df u.gender (categorize_bmi u.bmi)).map
        (fun r => rowScore r u)).isEmpty = false := by
      simpa [List.isEmpty_iff, List.map_eq_nil_iff] using hc
    simp only [h1, h2, Bool.false_eq_true, if_false]

/-- C1 witness: the theorem applied to the concrete scores `[3, 1, 1, 4]`. -/
theorem C1_selector_first_minimum_witness :
    ([3, 1, 1, 4] : List ℚ) ≠ [] ∧ argmin [3, 1, 1, 4] < 4 :=
  ⟨by decide, (C1_selector_first_minimum [3, 1, 1, 4] (by decide)).1⟩

/-- C2: `categorize_bmi` is total over all rational BMI values and maps via the
half-open exhaustive boundaries, each boundary value belonging to the higher
category; in particular 18.5 ↦ NORMAL, 18.49 ↦ UNDERWEIGHT, 24.999 ↦ NORMAL,
40 ↦ the terminal SEVERE/MORBID OBESITY category. -/
theorem C2_categorize_boundaries :
    (∀ b : ℚ, b < 18.5 → categorize_bmi b = "UNDERWEIGHT") ∧
    (∀ b : ℚ, 18.5 ≤ b → b < 25 → categorize_bmi b = "NORMAL") ∧
    (∀ b : ℚ, 25 ≤ b → b < 30 → categorize_bmi b = "OVERWEIGHT") ∧
    (∀ b : ℚ, 30 ≤ b → b < 35 → categorize_bmi b = "OBESITY (CLASS 1)") ∧
    (∀ b : ℚ, 35 ≤ b → b < 40 → categorize_bmi b = "OBESITY (CLASS 2)") ∧
    (∀ b : ℚ, 40 ≤ b → categorize_bmi b = "SEVERE/MORBID OBESITY") ∧
    (∀ b : ℚ, categorize_bmi b ∈ ["UNDERWEIGHT", "NORMAL", "OVERWEIGHT",
      "OBESITY (CLASS 1)", "OBESITY (CLASS 2)", "SEVERE/MORBID OBESITY"]) ∧
    categorize_bmi 18.5 = "NORMAL" ∧
    categorize_bmi 18.49 = "UNDERWEIGHT" ∧
    categorize_bmi 24.999 = "NORMAL" ∧
    categorize_bmi 40 = "SEVERE/MORBID OBESITY" := by
  refine ⟨?_, ?_, ?_, ?_, ?_, ?_, ?_, ?_, ?_, ?_, ?_⟩
  · intro b h; unfold categorize_bmi
    rw [if_pos h]
  · intro b h1 h2; unfold categorize_bmi
    rw [if_neg (not_lt.2 h1), if_pos ⟨h1, h2⟩]
  · intro b h1 h2; unfold categorize_bmi
    rw [if_neg (by push_neg; linarith : ¬ b < 18.5),
      if_neg (by push_neg; intro h; linarith : ¬ ((18.5 : ℚ) ≤ b ∧ b < 25)),
      if_pos ⟨h1, h2⟩]
  · intro b h1 h2; unfold categorize_bmi
    rw [if_neg (by push_neg; linarith : ¬ b < 18.5),
      if_neg (by push_neg; intro h; linarith : ¬ ((18.5 : ℚ) ≤ b ∧ b < 25)),
      if_neg (by push_neg; intro h; linarith : ¬ ((25 : ℚ) ≤ b ∧ b < 30)),
      if_pos ⟨h1, h2⟩]
  · intro b h1 h2; unfold categorize_bmi
    rw [if_neg (by push_neg; linarith : ¬ b < 18.5),
      if_neg (by push_neg; intro h; linarith : ¬ ((18.5 : ℚ) ≤ b ∧ b < 25)),
      if_neg (by push_neg; intro h; linarith : ¬ ((25 : ℚ) ≤ b ∧ b < 30)),
      if_neg (by push_neg; intro h; linarith : ¬ ((30 : ℚ) ≤ b ∧ b < 35)),
      if_pos ⟨h1, h2⟩]
  · intro b h; unfold categorize_bmi
    rw [if_neg (by push_neg; linarith : ¬ b < 18.5),
      if_neg (by push_neg; intro h2; linarith : ¬ ((18.5 : ℚ) ≤ b ∧ b < 25)),
      if_neg (by push_neg; intro h2; linarith : ¬ ((25 : ℚ) ≤ b ∧ b < 30)),
      if_neg (by push_neg; intro h2; linarith : ¬ ((30 : ℚ) ≤ b ∧ b < 35)),
      if_neg (by push_neg; intro h2; linarith : ¬ ((35 : ℚ) ≤ b ∧ b < 40))]
  · intro b; unfold categorize_bmi
    split_ifs <;> simp
  · norm_num [categorize_bmi]
  · norm_num [categorize_bmi]
  · norm_num [categorize_bmi]
  · norm_num [categorize_bmi]

/-- C2 witness: the boundary clause of the theorem applied at BMI 20. -/
theorem C2_categorize_boundaries_witness :
    (18.5 : ℚ) ≤ 20 ∧ (20 : ℚ) < 25 ∧ categorize_bmi 20 = "NORMAL" :=
  ⟨by norm_num, by norm_num,
    C2_categorize_boundaries.2.1 20 (by norm_num) (by norm_num)⟩

/-- C3: the per-candidate score computed by `find_best_match` equals exactly the
spec's weighted sum of absolute rank differences (activity weighted 2.0, soft
drinks and snacks 1.5, the other foods 1.0) and is non-negative; it is a pure
function of the candidate row and the user inputs. -/
theorem C3_score_weighted_sum (c : NormRecord) (u : UserInputs) :
    rowScore c u = score_spec c u ∧ 0 ≤ rowScore c u := by
  constructor
  · unfold rowScore score_spec; ring
  · unfold rowScore; positivity

/-- C4: the candidate filter returns exactly the subsequence of the dataset whose
records have stored gender equal to the requested gender AND stored BMI category
equal to the requested category — a pure conjunction, order preserved, and the
empty result is an ordinary value (the filter of an empty dataset). -/
theorem C4_filter_conjunction (df : List NormRecord) (g c : String) :
    (candidateFilter df g c).Sublist df ∧
    (∀ r, r ∈ candidateFilter df g c ↔
      r ∈ df ∧ r.gender = some g ∧ r.bmiCategory = some c) ∧
    candidateFilter ([] : List NormRecord) g c = [] := by
  refine ⟨List.filter_sublist df, ?_, rfl⟩
  intro r
  simp [candidateFilter, List.mem_filter, and_assoc]

/-- C5: both ordinal mappings are total: the consumption-frequency mapping sends
NEVER/RARELY/OFTEN/DAILY to 0/1/2/3 and the activity mapping sends LIGHT
ACTIVE/MODERATELY ACTIVE/ACTIVE/VERY ACTIVE to 0/1/2/3, while any unknown value
(and, on the dataset side, any missing cell) silently becomes rank 0 — for the
normalizer's column mappings and the scorer's user-input lookups alike. -/
theorem C5_rank_mappings_total :
    (eatingRankGet "NEVER" = 0 ∧ eatingRankGet "RARELY" = 1 ∧
      eatingRankGet "OFTEN" = 2 ∧ eatingRankGet "DAILY" = 3) ∧
    (activityRankGet "LIGHT ACTIVE" = 0 ∧ activityRankGet "MODERATELY ACTIVE" = 1 ∧
      activityRankGet "ACTIVE" = 2 ∧ activityRankGet "VERY ACTIVE" = 3) ∧
    (∀ s : String, s ∉ ["NEVER", "RARELY", "OFTEN", "DAILY"] → eatingRankGet s = 0) ∧
    (∀ s : String, s ∉ ["LIGHT ACTIVE", "MODERATELY ACTIVE", "ACTIVE", "VERY ACTIVE"] →
      activityRankGet s = 0) ∧
    (∀ v : Option String, cellEatingRank v = (v.map eatingRankGet).getD 0) ∧
    (∀ v : Option String, cellActivityRank v = (v.map activityRankGet).getD 0) ∧
    cellEatingRank none = 0 ∧ cellActivityRank none = 0 ∧
    (∀ s : String, s ∉ ["NEVER", "RARELY", "OFTEN", "DAILY"] →
      cellEatingRank (some s) = 0) ∧
    (∀ s : String, s ∉ ["LIGHT ACTIVE", "MODERATELY ACTIVE", "ACTIVE", "VERY ACTIVE"] →
      cellActivityRank (some s) = 0) := by
  refine ⟨by decide, by decide, ?_, ?_, ?_, ?_, rfl, rfl, ?_, ?_⟩
  · intro s hs
    simp only [List.mem_cons, List.not_mem_nil, or_false, not_or] at hs
    simp [eatingRankGet, EATING_HABIT_RANKING, hs.1, hs.2.1, hs.2.2.1, hs.2.2.2]
  · intro s hs
    simp only [List.mem_cons, List.not_mem_nil, or_false, not_or] at hs
    simp [activityRankGet, ACTIVITY_RANKING, hs.1, hs.2.1, hs.2.2.1, hs.2.2.2]
  · intro v; cases v <;> rfl
  · intro v; cases v <;> rfl
  · intro s hs
    simp only [List.mem_cons, List.not_mem_nil, or_false, not_or] at hs
    simp [cellEatingRank, EATING_HABIT_RANKING, hs.1, hs.2.1, hs.2.2.1, hs.2.2.2]
  · intro s hs
    simp only [List.mem_cons, List.not_mem_nil, or_false, not_or] at hs
    simp [cellActivityRank, ACTIVITY_RANKING, hs.1, hs.2.1, hs.2.2.1, hs.2.2.2]

/-- C5 witness: the unknown-value clauses of the theorem applied to the concrete
string "SOMETIMES", which is in neither ranking dictionary. -/
theorem C5_rank_mappings_total_witness :
    "SOMETIMES" ∉ ["NEVER", "RARELY", "OFTEN", "DAILY"] ∧
    eatingRankGet "SOMETIMES" = 0 ∧ activityRankGet "SOMETIMES" = 0 :=
  ⟨by decide, C5_rank_mappings_total.2.2.1 "SOMETIMES" (by decide),
    C5_rank_mappings_total.2.2.2.1 "SOMETIMES" (by decide)⟩

/-- C6: when the candidate filter yields no record for the user's gender and BMI
category, `find_best_match` returns the explicit no-match value `none` (not an
exception and not a default record), and `display_results` renders it as the
informational no-match message carrying no profile fields. -/
theorem C6_no_candidates_no_match (df : List NormRecord) (u : UserInputs)
    (h : candidateFilter df u.gender (categorize_bmi u.bmi) = []) :
    find_best_match df u = none ∧
    display_results (find_best_match df u) = Display.noMatch := by
  have : find_best_match df u = none := by
    unfold find_best_match
    simp [h]
  exact ⟨this, by rw [this]; rfl⟩

/-- A concrete normalized dataset row: a MALE record in the NORMAL BMI category. -/
def maleNormalRow : NormRecord where
  age := some 30
  meals := some 3
  height := some 170
  weight := some 65
  bmi := some 22
  gender := some "MALE"
  bmiCategory := some "NORMAL"
  activity := some "ACTIVE"
  rice := some "OFTEN"
  beans := some "RARELY"
  softDrinks := some "RARELY"
  snacks := some "RARELY"
  fruits := some "OFTEN"
  veg := some "OFTEN"
  advice := some "EAT WELL"
  risk := some "LOW RISK"
  riceRank := 2
  beansRank := 1
  softDrinksRank := 1
  snacksRank := 1
  fruitsRank := 2
  vegRank := 2
  activityRank := 2

/-- A concrete user-input dictionary for a FEMALE user with BMI 22. -/
def femaleUser : UserInputs where
  bmi := 22
  gender := "FEMALE"
  activity := "ACTIVE"
  rice := "OFTEN"
  beans := "RARELY"
  soft_drinks := "RARELY"
  snacks := "RARELY"
  fruits := "OFTEN"
  veg := "OFTEN"

/-- C6 witness: against a dataset holding only a MALE record, the FEMALE user's
query returns the explicit no-match value. -/
theorem C6_no_candidates_no_match_witness :
    candidateFilter [maleNormalRow] femaleUser.gender (categorize_bmi femaleUser.bmi) = [] ∧
    find_best_match [maleNormalRow] femaleUser = none := by
  have h : candidateFilter [maleNormalRow] femaleUser.gender
      (categorize_bmi femaleUser.bmi) = [] := by
    simp [candidateFilter, maleNormalRow, femaleUser, List.filter]
  exact ⟨h, (C6_no_candidates_no_match _ _ h).1⟩

/-- C7 counterexample: a dataset file that is present but unreadable raises an
exception the `except FileNotFoundError` clause does not catch, so loading does
NOT signal the `DataUnavailable` condition (the `None` return) there — the claim
"absent or unreadable → DataUnavailable rather than throwing uncaught" fails on
the unreadable case. -/
theorem C7_unreadable_counterexample :
    load_and_preprocess_data ReadOutcome.unreadableFile = PyResult.raised "PermissionError" ∧
    load_and_preprocess_data ReadOutcome.unreadableFile ≠
      PyResult.ok (none : Option (List NormRecord)) :=
  ⟨rfl, by simp [load_and_preprocess_data]⟩

/-- C7 (amended): if the dataset file is ABSENT at load time, loading signals
`DataUnavailable` by returning the unset dataset (`None`), `main` then shows the
dataset error and returns, so no match query is ever attempted against the
null dataset; a query runs only against a fully normalized loaded dataset. -/
theorem C7_missing_file_data_unavailable :
    load_and_preprocess_data ReadOutcome.missingFile =
      PyResult.ok (none : Option (List NormRecord)) ∧
    (∀ u : UserInputs, mainFlow ReadOutcome.missingFile u = AppOutcome.dataError) ∧
    (∀ (rows : List RawRecord) (u : UserInputs),
      mainFlow (ReadOutcome.found rows) u =
        AppOutcome.queried (find_best_match (normalize rows) u)) :=
  ⟨rfl, fun _ => rfl, fun _ _ => rfl⟩

/-- The median is invariant under permutation of the values: sorting yields the
same sorted list. -/
theorem median_perm (l₁ l₂ : List ℚ) (h : l₁.Perm l₂) : median l₁ = median l₂ := by
  have hs : List.insertionSort (· ≤ ·) l₁ = List.insertionSort (· ≤ ·) l₂ :=
    List.eq_of_perm_of_sorted
      ((List.perm_insertionSort _ l₁).trans (h.trans (List.perm_insertionSort _ l₂).symm))
      (List.sorted_insertionSort _ l₁) (List.sorted_insertionSort _ l₂)
  unfold median
  rw [hs, h.length_eq]

/-- `getD` after `map`: within bounds, mapping commutes with positional access. -/
theorem getD_map {α β : Type} (f : α → β) :
    ∀ (l : List α) (i : Nat), i < l.length → ∀ (d : β) (d' : α),
      (l.map f).getD i d = f (l.getD i d')
  | _ :: _, 0, _, _, _ => rfl
  | _ :: l, i + 1, h, d, d' => getD_map f l i (by simpa using h) d d'
  | [], i, h, _, _ => absurd h (by simp)

/-- C8 (amended): on a column with at least one non-missing value, `fillnaMedian`
keeps length, replaces exactly the missing cells with the median of the
original non-missing values (computed once, before any replacement, so no
imputed value influences it), leaves no missing cell, and the imputed median is
independent of row order. -/
theorem C8_median_imputation (col : List (Option ℚ)) (h : col.filterMap id ≠ []) :
    (fillnaMedian col).length = col.length ∧
    (∀ i, i < col.length →
      (fillnaMedian col).getD i none =
        some ((col.getD i none).getD (median (col.filterMap id)))) ∧
    (∀ v ∈ fillnaMedian col, v ≠ none) ∧
    (∀ col₂ : List (Option ℚ), col.Perm col₂ →
      median (col.filterMap id) = median (col₂.filterMap id)) := by
  have hm : colMedian col = some (median (col.filterMap id)) := by
    unfold colMedian
    rw [if_neg (by simpa [List.isEmpty_iff] using h)]
  refine ⟨by simp [fillnaMedian], ?_, ?_, ?_⟩
  · intro i hi
    unfold fillnaMedian
    rw [getD_map _ col i hi none none, hm]
    cases col.getD i none <;> rfl
  · intro v hv
    unfold fillnaMedian at hv
    obtain ⟨w, _, rfl⟩ := List.mem_map.1 hv
    cases w <;> simp [fillCell, hm]
  · intro col₂ hp
    exact median_perm _ _ (hp.filterMap id)

/-- C8 counterexample: a numeric column whose cells are all missing is left
entirely missing (the median of no values is NaN and `fillna(NaN)` changes
nothing), so "after normalization all numeric fields are non-missing" fails as
an unconditional statement. -/
theorem C8_all_missing_counterexample :
    fillnaMedian [(none : Option ℚ)] = [none] ∧
    (none : Option ℚ) ∈ fillnaMedian [(none : Option ℚ)] := by
  constructor <;> decide

/-- C8 witness: the amended theorem applied to the concrete column
`[some 1, none, some 3]`. -/
theorem C8_median_imputation_witness :
    ([some (1 : ℚ), none, some 3].filterMap id ≠ []) ∧
    (∀ v ∈ fillnaMedian [some (1 : ℚ), none, some 3], v ≠ none) :=
  ⟨by decide, (C8_median_imputation [some (1 : ℚ), none, some 3] (by decide)).2.2.1⟩

/-- A dataset-side consumption rank always lands in {0, 1, 2, 3}. -/
theorem cellEatingRank_mem (v : Option String) :
    cellEatingRank v ∈ ([0, 1, 2, 3] : List ℚ) := by
  cases v with
  | none => simp [cellEatingRank]
  | some s =>
      show (EATING_HABIT_RANKING s).getD 0 ∈ ([0, 1, 2, 3] : List ℚ)
      unfold EATING_HABIT_RANKING
      split_ifs <;> simp

/-- A dataset-side activity rank always lands in {0, 1, 2, 3}. -/
theorem cellActivityRank_mem (v : Option String) :
    cellActivityRank v ∈ ([0, 1, 2, 3] : List ℚ) := by
  cases v with
  | none => simp [cellActivityRank]
  | some s =>
      show (ACTIVITY_RANKING s).getD 0 ∈ ([0, 1, 2, 3] : List ℚ)
      unfold ACTIVITY_RANKING
      split_ifs <;> simp

/-- A concrete raw row whose stored `BMI Category` (OVERWEIGHT) disagrees with
the category its BMI value 22 would derive (NORMAL). -/
def sampleRaw : RawRecord where
  age := some 25
  meals := some 3
  height := some 160
  weight := some 60
  bmi := some 22
  gender := some "FEMALE"
  bmiCategory := some "OVERWEIGHT"
  activity := some "ACTIVE"
  rice := some "OFTEN"
  beans := some "RARELY"
  softDrinks := some "NEVER"
  snacks := some "DAILY"
  fruits := some "OFTEN"
  veg := some "OFTEN"
  advice := some "EAT MORE FRUITS"
  risk := some "MEDIUM RISK"

/-- C9 counterexample: the normalizer does NOT add a derived BMI category — it
keeps the stored `BMI Category` cell (merely canonicalized).  On a row with BMI
22 but stored category OVERWEIGHT, the normalized record's category stays
OVERWEIGHT, not the derived NORMAL. -/
theorem C9_stored_category_counterexample :
    sampleRaw.bmi = some 22 ∧
    categorize_bmi 22 = "NORMAL" ∧
    ((normalize [sampleRaw]).getD 0 default).bmiCategory = some "OVERWEIGHT" ∧
    ((normalize [sampleRaw]).getD 0 default).bmiCategory ≠ some (categorize_bmi 22) := by
  have h3 : ((normalize [sampleRaw]).getD 0 default).bmiCategory = some "OVERWEIGHT" := by
    decide
  have h2 : categorize_bmi 22 = "NORMAL" := by norm_num [categorize_bmi]
  refine ⟨rfl, h2, h3, ?_⟩
  rw [h3, h2]
  decide

/-- C9 (amended): the normalizer produces a sequence of equal length with the
i-th output derived from the i-th input; each output keeps its stored
(canonicalized) BMI category — it is not derived from the BMI value — and gains
an activity rank in 0–3 and one consumption rank in 0–3 per consumption column. -/
theorem C9_normalizer_shape (rows : List RawRecord) :
    (normalize rows).length = rows.length ∧
    (∀ i, i < rows.length →
      (normalize rows).getD i default =
        normalizeRow (colMedian (rows.map (fun r => r.age)))
          (colMedian (rows.map (fun r => r.meals)))
          (colMedian (rows.map (fun r => r.height)))
          (colMedian (rows.map (fun r => r.weight)))
          (colMedian (rows.map (fun r => r.bmi)))
          (rows.getD i default)) ∧
    (∀ (m1 m2 m3 m4 m5 : Option ℚ) (r : RawRecord),
      (normalizeRow m1 m2 m3 m4 m5 r).bmiCategory = canon r.bmiCategory ∧
      (normalizeRow m1 m2 m3 m4 m5 r).activityRank = cellActivityRank (canon r.activity) ∧
      (normalizeRow m1 m2 m3 m4 m5 r).activityRank ∈ ([0, 1, 2, 3] : List ℚ) ∧
      (normalizeRow m1 m2 m3 m4 m5 r).riceRank = cellEatingRank (canon r.rice) ∧
      (normalizeRow m1 m2 m3 m4 m5 r).riceRank ∈ ([0, 1, 2, 3] : List ℚ) ∧
      (normalizeRow m1 m2 m3 m4 m5 r).beansRank = cellEatingRank (canon r.beans) ∧
      (normalizeRow m1 m2 m3 m4 m5 r).beansRank ∈ ([0, 1, 2, 3] : List ℚ) ∧
      (normalizeRow m1 m2 m3 m4 m5 r).softDrinksRank = cellEatingRank (canon r.softDrinks) ∧
      (normalizeRow m1 m2 m3 m4 m5 r).softDrinksRank ∈ ([0, 1, 2, 3] : List ℚ) ∧
      (normalizeRow m1 m2 m3 m4 m5 r).snacksRank = cellEatingRank (canon r.snacks) ∧
      (normalizeRow m1 m2 m3 m4 m5 r).snacksRank ∈ ([0, 1, 2, 3] : List ℚ) ∧
      (normalizeRow m1 m2 m3 m4 m5 r).fruitsRank = cellEatingRank (canon r.fruits) ∧
      (normalizeRow m1 m2 m3 m4 m5 r).fruitsRank ∈ ([0, 1, 2, 3] : List ℚ) ∧
      (normalizeRow m1 m2 m3 m4 m5 r).vegRank = cellEatingRank (canon r.veg) ∧
      (normalizeRow m1 m2 m3 m4 m5 r).vegRank ∈ ([0, 1, 2, 3] : List ℚ)) := by
  refine ⟨by simp [normalize], ?_, ?_⟩
  · intro i hi
    unfold normalize
    exact getD_map _ rows i hi default default
  · intro m1 m2 m3 m4 m5 r
    exact ⟨rfl, rfl, cellActivityRank_mem _, rfl, cellEatingRank_mem _,
      rfl, cellEatingRank_mem _, rfl, cellEatingRank_mem _, rfl, cellEatingRank_mem _,
      rfl, cellEatingRank_mem _, rfl, cellEatingRank_mem _⟩

/-- C9 witness: the positional clause of the theorem applied to the singleton
dataset `[sampleRaw]` at index 0. -/
theorem C9_normalizer_shape_witness :
    0 < ([sampleRaw] : List RawRecord).length ∧
    (normalize [sampleRaw]).getD 0 default =
      normalizeRow (colMedian ([sampleRaw].map (fun r => r.age)))
        (colMedian ([sampleRaw].map (fun r => r.meals)))
        (colMedian ([sampleRaw].map (fun r => r.height)))
        (colMedian ([sampleRaw].map (fun r => r.weight)))
        (colMedian ([sampleRaw].map (fun r => r.bmi)))
        (([sampleRaw] : List RawRecord).getD 0 default) :=
  ⟨by decide, (C9_normalizer_shape [sampleRaw]).2.1 0 (by decide)⟩

/-- C10: the user's continuous BMI influences the match only through its derived
category: two user profiles identical except for BMI, whose BMI values
categorize equally, receive the same match result on every dataset. -/
theorem C10_bmi_only_via_category (df : List NormRecord) (u : UserInputs) (b1 b2 : ℚ)
    (h : categorize_bmi b1 = categorize_bmi b2) :
    find_best_match df { u with bmi := b1 } = find_best_match df { u with bmi := b2 } := by
  simp only [find_best_match]
  rw [h]
  rfl

/-- C10 witness: BMI 22 and BMI 23 both categorize as NORMAL, hence the same
match result on the concrete one-row dataset. -/
theorem C10_bmi_only_via_category_witness :
    categorize_bmi 22 = categorize_bmi 23 ∧
    find_best_match [maleNormalRow] { femaleUser with bmi := 22 } =
      find_best_match [maleNormalRow] { femaleUser with bmi := 23 } :=
  ⟨by norm_num [categorize_bmi],
    C10_bmi_only_via_category [maleNormalRow] femaleUser 22 23
      (by norm_num [categorize_bmi])⟩

end Nutrition
